import Mathlib

/-!
Shallow embedding of the voice-assistant pipeline
(`src/main.py`, `src/modules/audio_input.py`, `src/modules/whisper_stt.py`,
`src/modules/ollama_process.py`, `src/modules/tts.py`).

External effects (subprocess invocations, HTTP requests, filesystem access,
printing) are modelled by explicit environments that fix the outcome of each
external interaction, and every embedded function returns its result together
with a trace of the effects it performed, in order.  Exceptions are modelled
with `Except`: a `.error` result is a propagating Python exception, a `.ok`
result is a normal return.
-/

namespace VoiceAssistant

/-! ### Python string primitives used by the source -/

/-- Whitespace characters recognised by Python `str.strip` / `str.split`
(ASCII range; the source only ever handles ASCII command output). -/
def isPySpace (c : Char) : Bool :=
  c == ' ' || c == '\t' || c == '\n' || c == '\r' || c == '\x0b' || c == '\x0c'

/-- Python `s.strip()`: remove leading and trailing whitespace. -/
def pyStrip (s : String) : String :=
  String.mk (((s.toList.dropWhile isPySpace).reverse.dropWhile isPySpace).reverse)

/-- Worker for `pySplit`: walk the characters, accumulating the current word
in reverse. -/
def pySplitAux : List Char → List Char → List String
  | [], acc => if acc.isEmpty then [] else [String.mk acc.reverse]
  | c :: cs, acc =>
    if isPySpace c then
      if acc.isEmpty then pySplitAux cs []
      else String.mk acc.reverse :: pySplitAux cs []
    else pySplitAux cs (c :: acc)

/-- Python `s.split()` with no argument: split on whitespace runs, dropping
empty pieces. -/
def pySplit (s : String) : List String := pySplitAux s.toList []

/-- Worker for `pyReplace` on a nonempty pattern: scan left to right, replacing
each (non-overlapping) occurrence.  Fuel is the length of the scanned list;
every step consumes at least one character. -/
def pyReplaceGo (pat rep : List Char) : Nat → List Char → List Char
  | _, [] => []
  | 0, cs => cs
  | n + 1, c :: cs =>
    if pat.isPrefixOf (c :: cs) then
      rep ++ pyReplaceGo pat rep n ((c :: cs).drop pat.length)
    else
      c :: pyReplaceGo pat rep n cs

/-- Python `s.replace(pat, rep)`: replace every occurrence of `pat` by `rep`;
an empty pattern inserts `rep` before every character and at the end. -/
def pyReplace (s pat rep : String) : String :=
  if pat = "" then
    String.join (s.toList.map (fun c => rep ++ String.singleton c)) ++ rep
  else
    String.mk (pyReplaceGo pat.toList rep.toList s.length s.toList)

/-- Split a character list on a separator character, keeping empty pieces. -/
def splitOnChar (sep : Char) : List Char → List (List Char)
  | [] => [[]]
  | c :: rest =>
    if c == sep then [] :: splitOnChar sep rest
    else
      match splitOnChar sep rest with
      | [] => [[c]]
      | h :: t => (c :: h) :: t

/-- Python `PurePath(p).name`: the final path component (empty and `.`
components are dropped by the `PurePath` parser). -/
def pyName (p : String) : String :=
  ((((splitOnChar '/' p.toList).map String.mk).filter
      (fun c => c != "" && c != ".")).getLast?).getD ""

/-- Index of the last occurrence of a dot in a character list. -/
def lastDotIdx : List Char → Option Nat
  | [] => none
  | c :: cs =>
    match lastDotIdx cs with
    | some i => some (i + 1)
    | none => if c == '.' then some 0 else none

/-- Python `PurePath(p).suffix`: the extension of the final component, the
empty string when the final component has no internal dot. -/
def pySuffix (p : String) : String :=
  let name := pyName p
  match lastDotIdx name.toList with
  | some i => if 0 < i && i + 1 < name.length then String.mk (name.toList.drop i) else ""
  | none => ""

/-! ### Effects, external outcomes and Python exceptions -/

/-- JSON payload of the generation request built in `process_with_ollama`. -/
structure GeneratePayload where
  model : String
  prompt : String
  system : String
  stream : Bool
deriving DecidableEq

/-- Outcome of one `subprocess.run(cmd, check=True)` invocation:
normal completion, `FileNotFoundError` (tool missing), or
`subprocess.CalledProcessError` (non-zero exit). -/
inductive SpawnOutcome where
  | ok (stdout stderr : String)
  | notFound
  | exitErr (code : Nat) (stdout stderr : String)
deriving DecidableEq

/-- Observable effects, recorded in program order. -/
inductive Event where
  | spawn (cmd : List String) (outcome : SpawnOutcome)
  | print (line : String)
  | httpGet (url : String)
  | httpPost (url : String) (payload : GeneratePayload)
  | readFile (path : String)
  | writeFile (path : String) (contents : String)
  | deleteFile (path : String)
deriving DecidableEq

/-- Python exceptions that the embedded functions raise or propagate. -/
inductive PyErr where
  | fileNotFound (msg : String)
  | calledProcessError (cmd : List String) (code : Nat) (stderr : String)
  | keyError (key : String)
  | otherError (msg : String)
deriving DecidableEq

/-- Rendering of an exception, used where the source prints `f"... {e}"`. -/
def errStr : PyErr → String
  | .fileNotFound m => m
  | .calledProcessError cmd code _ =>
      "Command " ++ toString cmd ++ " returned non-zero exit status " ++ toString code ++ "."
  | .keyError k => k
  | .otherError m => m

/-- The exception raised by a failed spawn (`.ok` is unreachable here). -/
def spawnErr (cmd : List String) : SpawnOutcome → PyErr
  | .ok _ _ => .otherError "unreachable"
  | .notFound => .fileNotFound (cmd.headD "")
  | .exitErr code _ err => .calledProcessError cmd code err

/-- Whether a spawn outcome is one of the two caught failure exceptions. -/
def spawnFailed : SpawnOutcome → Bool
  | .ok _ _ => false
  | .notFound => true
  | .exitErr _ _ _ => true

/-- Python `tempfile.gettempdir()`, fixed to the conventional value. -/
def tmpdir : String := "/tmp"

/-! ### `modules/audio_input.py` -/

/-- The `audio` section of the configuration; absent keys use the defaults
applied by `config.get` in the source. -/
structure AudioConfig where
  device : Option String
  sample_rate : Option Nat
  duration : Option Nat

/-- External outcomes for one call to `record_audio`: what each recording tool
does if invoked, and the current `time.time()` reading. -/
structure RecordEnv where
  arecord : SpawnOutcome
  recTool : SpawnOutcome
  now : Nat

/-- Output path `tempfile.gettempdir()/recording_<time>.wav`. -/
def recordingPath (now : Nat) : String :=
  tmpdir ++ "/recording_" ++ toString now ++ ".wav"

/-- Command line of the primary recorder. -/
def arecordCmd (device : String) (rate dur : Nat) (out : String) : List String :=
  ["arecord", "-D", device, "-f", "S16_LE", "-c", "1", "-r", toString rate,
   "-d", toString dur, out]

/-- Command line of the fallback recorder. -/
def recCmd (rate dur : Nat) (out : String) : List String :=
  ["rec", "-q", out, "rate", toString rate, "channels", "1", "trim", "0", toString dur]

/-- Embedding of `record_audio(config)`. -/
def record_audio (env : RecordEnv) (config : AudioConfig) :
    Except PyErr String × List Event :=
  let dur := config.duration.getD 5
  let rate := config.sample_rate.getD 16000
  let device := config.device.getD "default"
  let output_file := recordingPath env.now
  let cmd1 := arecordCmd device rate dur output_file
  match env.arecord with
  | .ok o e => (.ok output_file, [.spawn cmd1 (.ok o e)])
  | f1 =>
    let cmd2 := recCmd rate dur output_file
    match env.recTool with
    | .ok o e => (.ok output_file, [.spawn cmd1 f1, .spawn cmd2 (.ok o e)])
    | f2 =>
      (.error (spawnErr cmd2 f2),
       [.spawn cmd1 f1, .spawn cmd2 f2,
        .print ("Error recording audio: " ++ errStr (spawnErr cmd2 f2)),
        .print "Make sure you have either ALSA tools (arecord) or SoX (rec) installed.",
        .print "Install with: sudo apt-get install alsa-utils or sudo apt-get install sox"])

/-! ### `modules/whisper_stt.py` -/

/-- The `whisper` section of the configuration.  `params` is `none` when the
key is absent (`if "params" in config`). -/
structure WhisperConfig where
  executable : String
  model : String
  params : Option String

/-- External outcomes for one call to `transcribe_audio`: filesystem existence,
the whisper subprocess outcome, and file contents for reads. -/
structure TranscribeEnv where
  pathExists : String → Bool
  run : SpawnOutcome
  fileContents : String → String

/-- Command line built for the whisper invocation. -/
def whisperCmd (audio_file : String) (config : WhisperConfig) : List String :=
  [config.executable, "-f", audio_file,
   "-m", "./whisper.cpp/models/ggml-" ++ config.model ++ ".bin", "-otxt"]
    ++ (match config.params with
        | some p => pySplit p
        | none => [])

/-- Output path derived by the source:
`str(audio_file).replace(Path(audio_file).suffix, ".txt")`, which replaces
every occurrence of the suffix substring anywhere in the path. -/
def whisperOutputPath (audio_file : String) : String :=
  pyReplace audio_file (pySuffix audio_file) ".txt"

/-- Message of the `FileNotFoundError` raised for a missing executable. -/
def whisperNotFoundMsg (exe : String) : String :=
  "Whisper executable not found at " ++ exe ++ ". Please install whisper.cpp and update the config."

/-- Embedding of `transcribe_audio(audio_file, config)`. -/
def transcribe_audio (env : TranscribeEnv) (audio_file : String) (config : WhisperConfig) :
    Except PyErr String × List Event :=
  if env.pathExists config.executable then
    let cmd := whisperCmd audio_file config
    match env.run with
    | .ok out err =>
      let output_file := whisperOutputPath audio_file
      if env.pathExists output_file then
        (.ok (pyStrip (env.fileContents output_file)),
         [.spawn cmd (.ok out err), .readFile output_file, .deleteFile output_file])
      else
        (.ok (pyStrip out), [.spawn cmd (.ok out err)])
    | .notFound =>
      (.error (.fileNotFound config.executable), [.spawn cmd .notFound])
    | .exitErr code out err =>
      (.ok "",
       [.spawn cmd (.exitErr code out err),
        .print ("Error running whisper.cpp: " ++ errStr (.calledProcessError cmd code err)),
        .print ("stderr: " ++ err)])
  else
    (.error (.fileNotFound (whisperNotFoundMsg config.executable)), [])

/-! ### `modules/ollama_process.py` -/

/-- An apostrophe, kept out of string literals. -/
def apos : String := String.singleton (Char.ofNat 39)

/-- The fixed apology returned when the server is unreachable or the liveness
check fails: `Sorry, I am having trouble ...` with a contraction. -/
def apologyConnect : String :=
  "Sorry, I" ++ apos ++ "m having trouble connecting to my thinking module."

/-- The fixed apology returned when the generation request itself fails. -/
def apologyError : String :=
  "Sorry, I encountered an error while processing your request."

/-- Outcome of the liveness `requests.get`: a response with a status code, a
`requests.exceptions.ConnectionError`, or some other exception (which the
source does not catch here). -/
inductive GetOutcome where
  | reply (status : Nat)
  | connectionError
  | exn (msg : String)
deriving DecidableEq

/-- Outcome of the generation `requests.post`: a response carrying a status
code, its parsed JSON object when the body parses (fields relevant to this
program are strings), and its raw text; or an exception. -/
inductive PostOutcome where
  | reply (status : Nat) (jsonBody : Option (List (String × String))) (text : String)
  | connectionError
  | exn (msg : String)
deriving DecidableEq

/-- External outcomes for one call to `process_with_ollama`. -/
structure OllamaEnv where
  tags : GetOutcome
  generate : PostOutcome

/-- The `ollama` section of the configuration; `system_prompt` is `none` when
the key is absent (`config.get`). -/
structure OllamaConfig where
  model : String
  system_prompt : Option String

/-- Liveness endpoint URL. -/
def tagsUrl : String := "http://localhost:11434/api/tags"

/-- Generation endpoint URL. -/
def generateUrl : String := "http://localhost:11434/api/generate"

/-- Embedding of `process_with_ollama(text, config)`. -/
def process_with_ollama (env : OllamaEnv) (text : String) (config : OllamaConfig) :
    Except PyErr String × List Event :=
  let system_prompt := config.system_prompt.getD "You are a helpful assistant."
  let getEv := Event.httpGet tagsUrl
  match env.tags with
  | .connectionError =>
    (.ok apologyConnect,
     [getEv, .print "Ollama server not running. Please start ollama service."])
  | .exn m => (.error (.otherError m), [getEv])
  | .reply status =>
    if status != 200 then
      (.ok apologyConnect,
       [getEv, .print ("Ollama server not responding. Make sure it" ++ apos ++ "s running.")])
    else
      let payload : GeneratePayload :=
        { model := config.model, prompt := text, system := system_prompt, stream := false }
      let postEv := Event.httpPost generateUrl payload
      match env.generate with
      | .connectionError =>
        (.ok apologyError, [getEv, postEv, .print "Error calling ollama: connection error"])
      | .exn m =>
        (.ok apologyError, [getEv, postEv, .print ("Error calling ollama: " ++ m)])
      | .reply st body txt =>
        if st == 200 then
          match body with
          | some obj => (.ok ((obj.lookup "response").getD ""), [getEv, postEv])
          | none =>
            (.ok apologyError, [getEv, postEv, .print "Error calling ollama: invalid JSON"])
        else
          (.ok apologyError,
           [getEv, postEv, .print ("Error from ollama API: " ++ toString st), .print txt])

/-! ### `modules/tts.py` -/

/-- The `tts` section of the configuration; every key is read via
`config.get` with a default. -/
structure TTSConfig where
  engine : Option String
  voice : Option String
  speed : Option Nat

/-- External outcomes for one call to `text_to_speech`: the synthesis tools,
the three audio players, the name handed out by `NamedTemporaryFile`, and
filesystem existence (queried for the output wav during cleanup). -/
structure TTSEnv where
  piperRun : SpawnOutcome
  espeakRun : SpawnOutcome
  aplayRun : SpawnOutcome
  paplayRun : SpawnOutcome
  playRun : SpawnOutcome
  textFilePath : String
  pathExists : String → Bool

/-- Fixed output path `tempfile.gettempdir()/tts_output.wav`. -/
def ttsOutputPath : String := tmpdir ++ "/tts_output.wav"

/-- Embedding of `play_audio(audio_file)`: try the players in priority order,
stopping at the first success. -/
def play_audio (env : TTSEnv) (audio_file : String) : List Event :=
  let c1 := ["aplay", audio_file]
  match env.aplayRun with
  | .ok o e => [.spawn c1 (.ok o e)]
  | f1 =>
    let c2 := ["paplay", audio_file]
    match env.paplayRun with
    | .ok o e => [.spawn c1 f1, .spawn c2 (.ok o e)]
    | f2 =>
      let c3 := ["play", "-q", audio_file]
      match env.playRun with
      | .ok o e => [.spawn c1 f1, .spawn c2 f2, .spawn c3 (.ok o e)]
      | f3 =>
        [.spawn c1 f1, .spawn c2 f2, .spawn c3 f3,
         .print "No suitable audio player found. Install aplay, paplay, or sox."]

/-- Command line of the piper invocation. -/
def piperCmd (voice out textFile : String) : List String :=
  ["piper", "--model", "piper-voices/" ++ voice ++ "/model.onnx",
   "--output_file", out, "--text_file", textFile]

/-- Embedding of `_tts_piper(text, config)`: write the text to a temp file,
invoke piper, play the result, and clean up in a `finally` block. -/
def tts_piper (env : TTSEnv) (text : String) (config : TTSConfig) : List Event :=
  let voice := config.voice.getD "en_US-amy-medium"
  let cmd := piperCmd voice ttsOutputPath env.textFilePath
  let body :=
    match env.piperRun with
    | .ok o e => [Event.spawn cmd (.ok o e)] ++ play_audio env ttsOutputPath
    | .notFound =>
      [Event.spawn cmd .notFound,
       Event.print ("Piper not found. Make sure it" ++ apos ++ "s installed."),
       Event.print "Install with: pip install piper-tts"]
    | .exitErr code o e =>
      [Event.spawn cmd (.exitErr code o e),
       Event.print ("Error running piper: " ++ errStr (.calledProcessError cmd code e))]
  [Event.writeFile env.textFilePath text] ++ body
    ++ [Event.deleteFile env.textFilePath]
    ++ (if env.pathExists ttsOutputPath then [Event.deleteFile ttsOutputPath] else [])

/-- Embedding of `_tts_espeak(text, config)`. -/
def tts_espeak (env : TTSEnv) (text : String) (config : TTSConfig) : List Event :=
  let voice := config.voice.getD "en"
  let speed := config.speed.getD 150
  let cmd := ["espeak", "-v", voice, "-s", toString speed, text]
  match env.espeakRun with
  | .ok o e => [.spawn cmd (.ok o e)]
  | .notFound =>
    [.spawn cmd .notFound,
     .print ("espeak not found. Make sure it" ++ apos ++ "s installed."),
     .print "Install with: sudo apt-get install espeak"]
  | .exitErr code o e =>
    [.spawn cmd (.exitErr code o e),
     .print ("Error running espeak: " ++ errStr (.calledProcessError cmd code e))]

/-- Embedding of `text_to_speech(text, config)`: dispatch on the configured
engine; unknown engines print a message and do nothing. -/
def text_to_speech (env : TTSEnv) (text : String) (config : TTSConfig) : List Event :=
  let engine := config.engine.getD "piper"
  if engine = "piper" then tts_piper env text config
  else if engine = "espeak" then tts_espeak env text config
  else
    [.print ("Unsupported TTS engine: " ++ engine),
     .print "Supported engines: piper, espeak"]

/-! ### `main.py`: one interaction cycle -/

/-- The loaded configuration as consumed by one cycle, one field per section
accessed by `run_assistant`. -/
structure AppConfig where
  whisper : WhisperConfig
  ollama : OllamaConfig
  tts : TTSConfig
  audio : AudioConfig

/-- External outcomes for one call to `run_assistant`. -/
structure AssistantEnv where
  recE : RecordEnv
  trE : TranscribeEnv
  olE : OllamaEnv
  ttsE : TTSEnv

/-- Embedding of `run_assistant(config)`: one capture / transcribe / generate /
synthesize cycle.  Uncaught exceptions from the stages propagate. -/
def run_assistant (env : AssistantEnv) (config : AppConfig) :
    Except PyErr Unit × List Event :=
  let e0 : List Event := [.print "\nListening... (press Ctrl+C to stop)"]
  match record_audio env.recE config.audio with
  | (.error e, t1) => (.error e, e0 ++ t1)
  | (.ok audio_file, t1) =>
    let e1 := e0 ++ t1 ++ [Event.print "Transcribing..."]
    match transcribe_audio env.trE audio_file config.whisper with
    | (.error e, t2) => (.error e, e1 ++ t2)
    | (.ok transcript, t2) =>
      let e2 := e1 ++ t2 ++ [Event.print ("You said: " ++ transcript)]
      if pyStrip transcript = "" then
        (.ok (), e2 ++ [Event.print "No speech detected. Please try again."])
      else
        let e3 := e2 ++ [Event.print "Processing with Ollama..."]
        match process_with_ollama env.olE transcript config.ollama with
        | (.error e, t3) => (.error e, e3 ++ t3)
        | (.ok response, t3) =>
          let e4 := e3 ++ t3 ++ [Event.print ("Assistant: " ++ response),
                                 Event.print "Converting to speech..."]
          (.ok (), e4 ++ text_to_speech env.ttsE response config.tts)

/-! ### `main.py`: configuration as a nested mapping and CLI overrides -/

/-- A JSON scalar as found in the configuration file. -/
inductive JVal where
  | s (v : String)
  | n (v : Int)
deriving DecidableEq

/-- One configuration section: an insertion-ordered string-to-scalar map. -/
abbrev CfgSection := List (String × JVal)

/-- The whole configuration: section name to section. -/
abbrev Config := List (String × CfgSection)

/-- The relevant command-line arguments; `none` means the flag was absent
(argparse default). -/
structure Args where
  model : Option String
  whisper_model : Option String
  tts_engine : Option String

/-- Python dict assignment `d[k] = v` on an insertion-ordered map: overwrite
in place when present, append when absent. -/
def setKey : CfgSection → String → JVal → CfgSection
  | [], k, v => [(k, v)]
  | (k2, v2) :: rest, k, v =>
    if k2 = k then (k2, v) :: rest else (k2, v2) :: setKey rest k v

/-- Python `config[sec][key] = v`: `KeyError` when the section is absent. -/
def setNested : Config → String → String → JVal → Except PyErr Config
  | [], sec, _, _ => .error (.keyError sec)
  | (s, kvs) :: rest, sec, key, v =>
    if s = sec then .ok ((s, setKey kvs key v) :: rest)
    else
      match setNested rest sec key v with
      | .ok r => .ok ((s, kvs) :: r)
      | .error e => .error e

/-- Python truthiness of an optional string flag (`if args.model:`). -/
def pyTruthy : Option String → Bool
  | none => false
  | some s => s != ""

/-- One `if args.flag: config[sec][key] = args.flag` step. -/
def applyOverride (flag : Option String) (sec key : String) (c : Config) :
    Except PyErr Config :=
  match flag with
  | some v => if v != "" then setNested c sec key (.s v) else .ok c
  | none => .ok c

/-- Embedding of the three override statements in `main`. -/
def applyOverrides (args : Args) (config : Config) : Except PyErr Config := do
  let c1 ← applyOverride args.model "ollama" "model" config
  let c2 ← applyOverride args.whisper_model "whisper" "model" c1
  applyOverride args.tts_engine "tts" "engine" c2

/-- Nested lookup `config[sec][key]` as an `Option`. -/
def getCfg (c : Config) (sec key : String) : Option JVal :=
  match c.lookup sec with
  | some kvs => kvs.lookup key
  | none => none

/-- The default configuration written by `create_default_config`. -/
def default_config : Config :=
  [("whisper",
    [("model", .s "base.en"), ("executable", .s "./whisper.cpp/main"),
     ("params", .s "--model models/ggml-base.en.bin -l en")]),
   ("ollama",
    [("model", .s "llama3"),
     ("system_prompt", .s "You are a helpful voice assistant. Provide concise responses.")]),
   ("tts", [("engine", .s "piper"), ("voice", .s "en_US-amy-medium")]),
   ("audio", [("device", .s "default"), ("sample_rate", .n 16000), ("duration", .n 5)])]

/-! ### Auxiliary definitions for the verification -/

/-- Whether an event is an HTTP request. -/
def isHttpEvent : Event → Bool
  | .httpGet _ => true
  | .httpPost _ _ => true
  | _ => false

/-- Comparison definition following the wording of the specification: the
sibling file with the same base name as the audio file and a `.txt`
extension, i.e. only the final suffix is exchanged for `.txt`. -/
def specSiblingTxtPath (p : String) : String :=
  String.mk (p.toList.take (p.length - (pySuffix p).length)) ++ ".txt"

/-- A benign TTS environment for concrete instances. -/
def ttsEnvDefault : TTSEnv :=
  { piperRun := .ok "" "", espeakRun := .ok "" "", aplayRun := .ok "" "",
    paplayRun := .ok "" "", playRun := .ok "" "",
    textFilePath := "/tmp/t.txt", pathExists := fun _ => false }

/-- A representative application configuration for concrete instances. -/
def appCfg : AppConfig :=
  { whisper := { executable := "./whisper.cpp/main", model := "base.en", params := none }
    ollama := { model := "llama3", system_prompt := none }
    tts := { engine := some "piper", voice := none, speed := none }
    audio := { device := none, sample_rate := none, duration := none } }

/-- Environment in which the liveness check hits a connection error. -/
def olEnvDown : OllamaEnv :=
  { tags := .connectionError, generate := .reply 200 (some []) "" }

/-- Environment in which the server is live and generation yields
`\x7b"response": "hello"\x7d`. -/
def olEnvHello : OllamaEnv :=
  { tags := .reply 200, generate := .reply 200 (some [("response", "hello")]) "" }

/-- Environment in which generation yields a JSON object without a
`response` field. -/
def olEnvNoField : OllamaEnv :=
  { tags := .reply 200, generate := .reply 200 (some [("other", "x")]) "" }

/-- Transcription environment for the output-path counterexample: the true
sibling text file `a.wav.txt` exists, the derived path does not. -/
def trC2 : TranscribeEnv :=
  { pathExists := fun p => p == "wh" || p == "a.wav.txt"
    run := .ok "FROM-STDOUT" ""
    fileContents := fun _ => "FROM-SIBLING" }

/-- Whisper configuration used with `trC2`. -/
def whCfgC2 : WhisperConfig := { executable := "wh", model := "m", params := none }

/-- Transcription environment whose subprocess exits non-zero. -/
def trC7 : TranscribeEnv :=
  { pathExists := fun _ => true, run := .exitErr 2 "" "bad", fileContents := fun _ => "" }

/-- Recording environment in which both recorders fail. -/
def recEnvBothFail : RecordEnv :=
  { arecord := .notFound, recTool := .exitErr 1 "" "boom", now := 7 }

/-- Assistant environment whose transcription stage yields only whitespace. -/
def envC1 : AssistantEnv :=
  { recE := { arecord := .ok "" "", recTool := .ok "" "", now := 0 }
    trE := { pathExists := fun p => p == "./whisper.cpp/main", run := .ok "   " "",
             fileContents := fun _ => "" }
    olE := { tags := .reply 200, generate := .reply 200 (some []) "" }
    ttsE := ttsEnvDefault }

/-- Assistant environment in which the whisper executable is missing. -/
def envC5 : AssistantEnv :=
  { recE := { arecord := .ok "" "", recTool := .ok "" "", now := 3 }
    trE := { pathExists := fun _ => false, run := .ok "" "", fileContents := fun _ => "" }
    olE := { tags := .connectionError, generate := .connectionError }
    ttsE := ttsEnvDefault }

/-- Arguments used for the override instances: model and engine provided,
whisper model absent. -/
def argsW : Args := { model := some "m2", whisper_model := none, tts_engine := some "espeak" }

/-- The configuration obtained from the defaults under `argsW`. -/
def overriddenConfig : Config :=
  [("whisper",
    [("model", .s "base.en"), ("executable", .s "./whisper.cpp/main"),
     ("params", .s "--model models/ggml-base.en.bin -l en")]),
   ("ollama",
    [("model", .s "m2"),
     ("system_prompt", .s "You are a helpful voice assistant. Provide concise responses.")]),
   ("tts", [("engine", .s "espeak"), ("voice", .s "en_US-amy-medium")]),
   ("audio", [("device", .s "default"), ("sample_rate", .n 16000), ("duration", .n 5)])]

/-- Arguments in which `--model` is provided with the empty string. -/
def argsEmptyModel : Args := { model := some "", whisper_model := none, tts_engine := none }

/-! ### Claims about `process_with_ollama` -/

/-- C3: for every input text and configuration, if the liveness request to the
listing endpoint hits a connection error, or returns a status other than 200,
`process_with_ollama` returns the fixed apology string, raises no exception,
and never issues the generation POST request. -/
theorem ollama_unreachable_returns_apology
    (env : OllamaEnv) (text : String) (config : OllamaConfig)
    (h : env.tags = .connectionError ∨ ∃ s, env.tags = .reply s ∧ s ≠ 200) :
    (process_with_ollama env text config).1 = .ok apologyConnect
    ∧ ∀ u p, Event.httpPost u p ∉ (process_with_ollama env text config).2 := by
  rcases h with h | ⟨s, h, hs⟩
  · simp [process_with_ollama, h]
  · simp [process_with_ollama, h, hs]

/-- Witness for C3 at a concrete unreachable-server environment. -/
theorem ollama_unreachable_returns_apology_witness :
    (process_with_ollama olEnvDown "hi" { model := "llama3", system_prompt := none }).1
        = .ok apologyConnect
    ∧ ∀ u p, Event.httpPost u p ∉
        (process_with_ollama olEnvDown "hi" { model := "llama3", system_prompt := none }).2 :=
  ollama_unreachable_returns_apology olEnvDown "hi"
    { model := "llama3", system_prompt := none } (.inl rfl)

/-- C8: when the liveness check returns 200 and the generation endpoint
returns 200 with JSON body containing exactly the field `response` mapped to
`hello`, `process_with_ollama` returns exactly `hello`. -/
theorem ollama_returns_response_field
    (env : OllamaEnv) (text : String) (config : OllamaConfig) (t : String)
    (h1 : env.tags = .reply 200)
    (h2 : env.generate = .reply 200 (some [("response", "hello")]) t) :
    (process_with_ollama env text config).1 = .ok "hello" := by
  simp [process_with_ollama, h1, h2, List.lookup]

/-- Witness for C8 at a concrete mock-server environment. -/
theorem ollama_returns_response_field_witness :
    (process_with_ollama olEnvHello "hi" { model := "llama3", system_prompt := none }).1
      = .ok "hello" :=
  ollama_returns_response_field olEnvHello "hi"
    { model := "llama3", system_prompt := none } "" rfl rfl

/-- C10: when the liveness check returns 200 and the generation endpoint
returns 200 with a JSON object that has no `response` field,
`process_with_ollama` returns the empty string. -/
theorem ollama_missing_response_returns_empty
    (env : OllamaEnv) (text : String) (config : OllamaConfig)
    (obj : List (String × String)) (t : String)
    (h1 : env.tags = .reply 200)
    (h2 : env.generate = .reply 200 (some obj) t)
    (h3 : obj.lookup "response" = none) :
    (process_with_ollama env text config).1 = .ok "" := by
  simp [process_with_ollama, h1, h2, h3]

/-- Witness for C10 at a concrete environment whose generation reply lacks a
`response` field. -/
theorem ollama_missing_response_returns_empty_witness :
    (process_with_ollama olEnvNoField "hi" { model := "llama3", system_prompt := none }).1
      = .ok "" :=
  ollama_missing_response_returns_empty olEnvNoField "hi"
    { model := "llama3", system_prompt := none } [("other", "x")] "" rfl rfl rfl

/-! ### Claims about `transcribe_audio` error handling -/

/-- C7: for every environment in which the executable exists and the
recognizer subprocess exits with a non-zero status, `transcribe_audio`
catches the error, prints the error and the captured stderr, and returns the
empty string rather than raising. -/
theorem transcribe_nonzero_exit_returns_empty
    (env : TranscribeEnv) (af : String) (config : WhisperConfig)
    (code : Nat) (out err : String)
    (hexe : env.pathExists config.executable = true)
    (hrun : env.run = .exitErr code out err) :
    transcribe_audio env af config =
      (.ok "",
       [.spawn (whisperCmd af config) (.exitErr code out err),
        .print ("Error running whisper.cpp: "
          ++ errStr (.calledProcessError (whisperCmd af config) code err)),
        .print ("stderr: " ++ err)]) := by
  simp [transcribe_audio, hexe, hrun]

/-- Witness for C7 at a concrete failing-recognizer environment. -/
theorem transcribe_nonzero_exit_returns_empty_witness :
    transcribe_audio trC7 "a.wav" whCfgC2 =
      (.ok "",
       [.spawn (whisperCmd "a.wav" whCfgC2) (.exitErr 2 "" "bad"),
        .print ("Error running whisper.cpp: "
          ++ errStr (.calledProcessError (whisperCmd "a.wav" whCfgC2) 2 "bad")),
        .print ("stderr: " ++ "bad")]) :=
  transcribe_nonzero_exit_returns_empty trC7 "a.wav" whCfgC2 2 "" "bad" rfl rfl

/-! ### Claim about `text_to_speech` dispatch -/

/-- C9: for every text and every configured engine value other than `piper`
and `espeak`, `text_to_speech` prints an unsupported-engine message and
returns without invoking any subprocess or creating any file. -/
theorem tts_unsupported_engine_no_op
    (env : TTSEnv) (text : String) (config : TTSConfig) (e : String)
    (h1 : config.engine = some e) (h2 : e ≠ "piper") (h3 : e ≠ "espeak") :
    text_to_speech env text config =
      [.print ("Unsupported TTS engine: " ++ e),
       .print "Supported engines: piper, espeak"]
    ∧ ∀ ev ∈ text_to_speech env text config,
        (∀ cmd o, ev ≠ .spawn cmd o) ∧ (∀ p c2, ev ≠ .writeFile p c2) := by
  have heq : text_to_speech env text config =
      [.print ("Unsupported TTS engine: " ++ e),
       .print "Supported engines: piper, espeak"] := by
    simp [text_to_speech, h1, h2, h3]
  refine ⟨heq, ?_⟩
  rw [heq]
  intro ev hev
  simp only [List.mem_cons, List.not_mem_nil, or_false] at hev
  rcases hev with rfl | rfl <;> constructor <;> intro x y hxy <;> cases hxy

/-- Witness for C9 at a concrete unsupported engine value. -/
theorem tts_unsupported_engine_no_op_witness :
    text_to_speech ttsEnvDefault "hello"
        { engine := some "festival", voice := none, speed := none } =
      [.print ("Unsupported TTS engine: " ++ "festival"),
       .print "Supported engines: piper, espeak"]
    ∧ ∀ ev ∈ text_to_speech ttsEnvDefault "hello"
        { engine := some "festival", voice := none, speed := none },
        (∀ cmd o, ev ≠ .spawn cmd o) ∧ (∀ p c2, ev ≠ .writeFile p c2) :=
  tts_unsupported_engine_no_op ttsEnvDefault "hello"
    { engine := some "festival", voice := none, speed := none } "festival"
    rfl (by decide) (by decide)

/-! ### Claim about the missing-executable fatal error -/

/-- C5: for every configuration in which the configured whisper executable
path does not exist, `transcribe_audio` raises a file-not-found error without
invoking any subprocess (its effect trace is empty), and the error is not
caught within the cycle: `run_assistant` propagates it to the caller. -/
theorem transcribe_missing_executable_propagates
    (env : AssistantEnv) (config : AppConfig) (af : String) (t1 : List Event)
    (hexe : env.trE.pathExists config.whisper.executable = false)
    (hrec : record_audio env.recE config.audio = (.ok af, t1)) :
    transcribe_audio env.trE af config.whisper =
      (.error (.fileNotFound (whisperNotFoundMsg config.whisper.executable)), [])
    ∧ (run_assistant env config).1 =
        .error (.fileNotFound (whisperNotFoundMsg config.whisper.executable)) := by
  have htr : transcribe_audio env.trE af config.whisper =
      (.error (.fileNotFound (whisperNotFoundMsg config.whisper.executable)), []) := by
    simp [transcribe_audio, hexe]
  refine ⟨htr, ?_⟩
  simp [run_assistant, hrec, htr]

/-- Witness for C5 at a concrete environment with the executable absent. -/
theorem transcribe_missing_executable_propagates_witness :
    transcribe_audio envC5.trE "/tmp/recording_3.wav" appCfg.whisper =
      (.error (.fileNotFound (whisperNotFoundMsg appCfg.whisper.executable)), [])
    ∧ (run_assistant envC5 appCfg).1 =
        .error (.fileNotFound (whisperNotFoundMsg appCfg.whisper.executable)) :=
  transcribe_missing_executable_propagates envC5 appCfg "/tmp/recording_3.wav"
    [.spawn (arecordCmd "default" 16000 5 (recordingPath 3)) (.ok "" "")]
    rfl rfl

/-! ### Claim about the recorder fallback -/

/-- C6: `record_audio` invokes the primary recorder first; the secondary
recorder is invoked, targeting the same output path, iff the primary spawn
fails (tool not found or non-zero exit); and when both fail, the call returns
the exception of the secondary spawn after printing install guidance, its
trace being exactly the two spawns followed by the three diagnostics. -/
theorem record_audio_fallback (env : RecordEnv) (config : AudioConfig) :
    (record_audio env config).2.head? =
      some (.spawn (arecordCmd (config.device.getD "default")
        (config.sample_rate.getD 16000) (config.duration.getD 5)
        (recordingPath env.now)) env.arecord)
    ∧ ((∃ o, Event.spawn (recCmd (config.sample_rate.getD 16000)
          (config.duration.getD 5) (recordingPath env.now)) o
            ∈ (record_audio env config).2)
        ↔ spawnFailed env.arecord = true)
    ∧ (spawnFailed env.arecord = true → spawnFailed env.recTool = true →
        record_audio env config =
          (.error (spawnErr (recCmd (config.sample_rate.getD 16000)
              (config.duration.getD 5) (recordingPath env.now)) env.recTool),
           [.spawn (arecordCmd (config.device.getD "default")
              (config.sample_rate.getD 16000) (config.duration.getD 5)
              (recordingPath env.now)) env.arecord,
            .spawn (recCmd (config.sample_rate.getD 16000)
              (config.duration.getD 5) (recordingPath env.now)) env.recTool,
            .print ("Error recording audio: "
              ++ errStr (spawnErr (recCmd (config.sample_rate.getD 16000)
                  (config.duration.getD 5) (recordingPath env.now)) env.recTool)),
            .print "Make sure you have either ALSA tools (arecord) or SoX (rec) installed.",
            .print "Install with: sudo apt-get install alsa-utils or sudo apt-get install sox"])) := by
  rcases env with ⟨a, r, n⟩
  cases a <;> cases r <;>
    simp [record_audio, arecordCmd, recCmd, spawnFailed, spawnErr]

/-- Witness for C6: both recorders fail, the secondary exception surfaces. -/
theorem record_audio_fallback_witness :
    record_audio recEnvBothFail { device := none, sample_rate := none, duration := none } =
      (.error (spawnErr (recCmd 16000 5 (recordingPath 7)) (.exitErr 1 "" "boom")),
       [.spawn (arecordCmd "default" 16000 5 (recordingPath 7)) .notFound,
        .spawn (recCmd 16000 5 (recordingPath 7)) (.exitErr 1 "" "boom"),
        .print ("Error recording audio: "
          ++ errStr (spawnErr (recCmd 16000 5 (recordingPath 7)) (.exitErr 1 "" "boom"))),
        .print "Make sure you have either ALSA tools (arecord) or SoX (rec) installed.",
        .print "Install with: sudo apt-get install alsa-utils or sudo apt-get install sox"]) :=
  (record_audio_fallback recEnvBothFail
    { device := none, sample_rate := none, duration := none }).2.2 rfl rfl

/-! ### The early-exit claim for a whitespace transcript -/

/-- Recording performs no HTTP request, whatever the environment does. -/
theorem record_audio_no_http (env : RecordEnv) (config : AudioConfig) :
    ∀ ev ∈ (record_audio env config).2, isHttpEvent ev = false := by
  rcases env with ⟨a, r, n⟩
  cases a <;> cases r <;> simp [record_audio, isHttpEvent]

/-- Transcription performs no HTTP request, whatever the environment does. -/
theorem transcribe_audio_no_http (env : TranscribeEnv) (af : String)
    (config : WhisperConfig) :
    ∀ ev ∈ (transcribe_audio env af config).2, isHttpEvent ev = false := by
  unfold transcribe_audio
  split
  · split
    · cases h2 : env.pathExists (whisperOutputPath af) <;> simp [h2, isHttpEvent]
    · simp [isHttpEvent]
    · simp [isHttpEvent]
  · simp

/-- C1: whenever capture succeeds and transcription succeeds with a
transcript that strips to the empty string (in particular any transcript of
whitespace only), `run_assistant` stops right after echoing the transcript
and the no-speech notice: its trace is exactly the capture and transcription
effects plus four prints, it contains no HTTP request at all (so
`process_with_ollama` never ran), and nothing from `text_to_speech` follows
the no-speech notice. -/
theorem run_assistant_whitespace_skips
    (env : AssistantEnv) (config : AppConfig) (af t : String) (t1 t2 : List Event)
    (hrec : record_audio env.recE config.audio = (.ok af, t1))
    (htr : transcribe_audio env.trE af config.whisper = (.ok t, t2))
    (hws : pyStrip t = "") :
    run_assistant env config =
      (.ok (), Event.print "\nListening... (press Ctrl+C to stop)" ::
        (t1 ++ Event.print "Transcribing..." ::
          (t2 ++ [Event.print ("You said: " ++ t),
                  Event.print "No speech detected. Please try again."])))
    ∧ ∀ ev ∈ (run_assistant env config).2, isHttpEvent ev = false := by
  have hrun : run_assistant env config =
      (.ok (), Event.print "\nListening... (press Ctrl+C to stop)" ::
        (t1 ++ Event.print "Transcribing..." ::
          (t2 ++ [Event.print ("You said: " ++ t),
                  Event.print "No speech detected. Please try again."]))) := by
    simp [run_assistant, hrec, htr, hws]
  have ht1 : ∀ ev ∈ t1, isHttpEvent ev = false := by
    have h := record_audio_no_http env.recE config.audio
    rw [hrec] at h
    exact h
  have ht2 : ∀ ev ∈ t2, isHttpEvent ev = false := by
    have h := transcribe_audio_no_http env.trE af config.whisper
    rw [htr] at h
    exact h
  refine ⟨hrun, ?_⟩
  rw [hrun]
  intro ev hev
  simp only [List.mem_cons, List.mem_append, List.not_mem_nil, or_false] at hev
  rcases hev with rfl | hev1 | rfl | hev2 | rfl | rfl
  · rfl
  · exact ht1 ev hev1
  · rfl
  · exact ht2 ev hev2
  · rfl
  · rfl

/-- Witness for C1 at a concrete environment whose recognizer yields only
whitespace on stdout (the returned transcript strips to empty). -/
theorem run_assistant_whitespace_skips_witness :
    run_assistant envC1 appCfg =
      (.ok (), Event.print "\nListening... (press Ctrl+C to stop)" ::
        ([Event.spawn (arecordCmd "default" 16000 5 (recordingPath 0)) (.ok "" "")]
          ++ Event.print "Transcribing..." ::
          ([Event.spawn (whisperCmd (recordingPath 0) appCfg.whisper) (.ok "   " "")]
            ++ [Event.print ("You said: " ++ ""),
                Event.print "No speech detected. Please try again."])))
    ∧ ∀ ev ∈ (run_assistant envC1 appCfg).2, isHttpEvent ev = false :=
  run_assistant_whitespace_skips envC1 appCfg (recordingPath 0) ""
    [Event.spawn (arecordCmd "default" 16000 5 (recordingPath 0)) (.ok "" "")]
    [Event.spawn (whisperCmd (recordingPath 0) appCfg.whisper) (.ok "   " "")]
    rfl rfl rfl

/-! ### The output-file derivation of `transcribe_audio` -/

/-- C2 counterexample: for the audio path `a.wav.wav` the source derives
`a.txt.txt` (Python `str.replace` substitutes every occurrence of the
suffix), not the sibling path `a.wav.txt` with the same base name; in an
environment in which the recognizer succeeds and exactly that sibling file
exists, `transcribe_audio` ignores it, returns the trimmed stdout instead of
its contents, and neither reads nor deletes it. -/
theorem transcribe_sibling_counterexample :
    pySuffix "a.wav.wav" = ".wav"
    ∧ specSiblingTxtPath "a.wav.wav" = "a.wav.txt"
    ∧ whisperOutputPath "a.wav.wav" = "a.txt.txt"
    ∧ whisperOutputPath "a.wav.wav" ≠ specSiblingTxtPath "a.wav.wav"
    ∧ trC2.pathExists "a.wav.txt" = true
    ∧ transcribe_audio trC2 "a.wav.wav" whCfgC2 =
        (.ok "FROM-STDOUT",
         [.spawn (whisperCmd "a.wav.wav" whCfgC2) (.ok "FROM-STDOUT" "")])
    ∧ Event.readFile "a.wav.txt" ∉ (transcribe_audio trC2 "a.wav.wav" whCfgC2).2
    ∧ Event.deleteFile "a.wav.txt" ∉ (transcribe_audio trC2 "a.wav.wav" whCfgC2).2 := by
  refine ⟨rfl, rfl, rfl, by decide, rfl, rfl, ?_, ?_⟩ <;> decide

/-- C2 amended: on a successful recognizer invocation, `transcribe_audio`
derives the candidate output path by replacing every occurrence of the audio
path suffix substring with `.txt`; if a file at that derived path exists it
reads it, deletes it and returns its trimmed contents, otherwise it returns
the trimmed subprocess stdout. -/
theorem transcribe_success_behavior
    (env : TranscribeEnv) (af : String) (config : WhisperConfig) (out err : String)
    (hexe : env.pathExists config.executable = true)
    (hrun : env.run = .ok out err) :
    whisperOutputPath af = pyReplace af (pySuffix af) ".txt"
    ∧ transcribe_audio env af config =
        (if env.pathExists (whisperOutputPath af) then
          (.ok (pyStrip (env.fileContents (whisperOutputPath af))),
           [.spawn (whisperCmd af config) (.ok out err),
            .readFile (whisperOutputPath af), .deleteFile (whisperOutputPath af)])
        else
          (.ok (pyStrip out), [.spawn (whisperCmd af config) (.ok out err)])) := by
  refine ⟨rfl, ?_⟩
  simp only [transcribe_audio, hexe, hrun, if_true]

/-- Witness for the amended C2 at a concrete environment in which the derived
file is absent and stdout is used. -/
theorem transcribe_success_behavior_witness :
    whisperOutputPath "b.wav" = pyReplace "b.wav" (pySuffix "b.wav") ".txt"
    ∧ transcribe_audio trC2 "b.wav" whCfgC2 =
        (if trC2.pathExists (whisperOutputPath "b.wav") then
          (.ok (pyStrip (trC2.fileContents (whisperOutputPath "b.wav"))),
           [.spawn (whisperCmd "b.wav" whCfgC2) (.ok "FROM-STDOUT" ""),
            .readFile (whisperOutputPath "b.wav"), .deleteFile (whisperOutputPath "b.wav")])
        else
          (.ok (pyStrip "FROM-STDOUT"),
           [.spawn (whisperCmd "b.wav" whCfgC2) (.ok "FROM-STDOUT" "")])) :=
  transcribe_success_behavior trC2 "b.wav" whCfgC2 "FROM-STDOUT" "" rfl rfl

/-! ### The command-line override step -/

/-- Lookup on a cons cell, phrased with a propositional if. -/
theorem lookup_cons (a k : String) (v : JVal) (tl : CfgSection) :
    List.lookup a ((k, v) :: tl) = if a = k then some v else List.lookup a tl := by
  by_cases h : a = k
  · subst h; simp [List.lookup]
  · have hb : (a == k) = false := by simp [h]
    simp [List.lookup, hb, h]

/-- Nested lookup on a cons cell, phrased with a propositional if. -/
theorem getCfg_cons (s : String) (kvs : CfgSection) (tl : Config) (sec2 key2 : String) :
    getCfg ((s, kvs) :: tl) sec2 key2 =
      if sec2 = s then kvs.lookup key2 else getCfg tl sec2 key2 := by
  by_cases h : sec2 = s
  · subst h; simp [getCfg, List.lookup]
  · have hb : (sec2 == s) = false := by simp [h]
    simp [getCfg, List.lookup, hb, h]

/-- Lookup after a dict assignment: the assigned key reads back the new
value, every other key is unchanged. -/
theorem setKey_lookup (kvs : CfgSection) (k : String) (v : JVal) (k2 : String) :
    (setKey kvs k v).lookup k2 = if k2 = k then some v else kvs.lookup k2 := by
  induction kvs with
  | nil =>
    show List.lookup k2 [(k, v)] = _
    rw [lookup_cons]
  | cons hd tl ih =>
    obtain ⟨k3, v3⟩ := hd
    by_cases hk : k3 = k
    · subst hk
      by_cases h2 : k2 = k3 <;> simp [setKey, lookup_cons, h2]
    · by_cases h2 : k2 = k <;> by_cases h3 : k2 = k3 <;>
        simp_all [setKey, lookup_cons]

/-- Lookup after a nested assignment `config[sec][key] = v`: the assigned
nested key reads back the new value, every other nested key is unchanged. -/
theorem setNested_getCfg (c : Config) (sec key : String) (v : JVal) (c2 : Config)
    (h : setNested c sec key v = .ok c2) (sec2 key2 : String) :
    getCfg c2 sec2 key2 =
      if sec2 = sec ∧ key2 = key then some v else getCfg c sec2 key2 := by
  induction c generalizing c2 with
  | nil => simp [setNested] at h
  | cons hd tl ih =>
    obtain ⟨s, kvs⟩ := hd
    by_cases hs : s = sec
    · subst hs
      simp [setNested] at h
      subst h
      by_cases h2 : sec2 = s
      · subst h2
        simp [getCfg_cons, setKey_lookup]
      · simp [getCfg_cons, h2]
    · rw [setNested, if_neg hs] at h
      cases hr : setNested tl sec key v with
      | error e => rw [hr] at h; cases h
      | ok r =>
        rw [hr] at h
        simp only [Except.ok.injEq] at h
        subst h
        have hrec := ih r hr
        by_cases h2 : sec2 = s
        · subst h2
          have hcond : ¬(sec2 = sec ∧ key2 = key) := fun hc => hs hc.1
          simp [getCfg_cons, hcond]
        · simp [getCfg_cons, h2, hrec]

/-- Lookup after one optional override step. -/
theorem applyOverride_getCfg (flag : Option String) (sec key : String) (c c2 : Config)
    (h : applyOverride flag sec key c = .ok c2) (sec2 key2 : String) :
    getCfg c2 sec2 key2 =
      if pyTruthy flag = true ∧ sec2 = sec ∧ key2 = key then some (.s (flag.getD ""))
      else getCfg c sec2 key2 := by
  cases flag with
  | none =>
    simp only [applyOverride, Except.ok.injEq] at h
    subst h
    simp [pyTruthy]
  | some vStr =>
    by_cases hv : vStr = ""
    · subst hv
      simp only [applyOverride, bne_self_eq_false, Bool.false_eq_true, if_false,
        Except.ok.injEq] at h
      subst h
      simp [pyTruthy]
    · have hb : (vStr != "") = true := by simp [bne_iff_ne, hv]
      simp only [applyOverride, hb, if_true] at h
      rw [setNested_getCfg c sec key (.s vStr) c2 h sec2 key2]
      simp [pyTruthy, hb]

/-- C4 amended: whenever the three override assignments succeed, a flag
provided with a non-empty value replaces exactly its nested key
(`ollama.model`, `whisper.model`, `tts.engine` respectively), a flag that is
absent or provided as the empty string (Python truthiness) changes nothing,
and every other nested key of the configuration is unchanged. -/
theorem overrides_update_and_frame
    (args : Args) (config c2 : Config)
    (h : applyOverrides args config = .ok c2) (sec key : String) :
    getCfg c2 sec key =
      if pyTruthy args.tts_engine = true ∧ sec = "tts" ∧ key = "engine" then
        some (.s (args.tts_engine.getD ""))
      else if pyTruthy args.whisper_model = true ∧ sec = "whisper" ∧ key = "model" then
        some (.s (args.whisper_model.getD ""))
      else if pyTruthy args.model = true ∧ sec = "ollama" ∧ key = "model" then
        some (.s (args.model.getD ""))
      else getCfg config sec key := by
  unfold applyOverrides at h
  cases h1 : applyOverride args.model "ollama" "model" config with
  | error e => rw [h1] at h; cases h
  | ok c1a =>
    rw [h1] at h
    simp only [bind, Except.bind] at h
    cases h2 : applyOverride args.whisper_model "whisper" "model" c1a with
    | error e => rw [h2] at h; cases h
    | ok c1b =>
      rw [h2] at h
      rw [applyOverride_getCfg args.tts_engine "tts" "engine" c1b c2 h sec key]
      rw [applyOverride_getCfg args.whisper_model "whisper" "model" c1a c1b h2 sec key]
      rw [applyOverride_getCfg args.model "ollama" "model" config c1a h1 sec key]

/-- Witness for the amended C4: under `argsW` the defaults read back the two
overridden values and an untouched key is unchanged. -/
theorem overrides_update_and_frame_witness :
    getCfg overriddenConfig "whisper" "params" = getCfg default_config "whisper" "params"
    ∧ getCfg overriddenConfig "ollama" "model" = some (.s "m2")
    ∧ getCfg overriddenConfig "tts" "engine" = some (.s "espeak") := by
  refine ⟨?_, ?_, ?_⟩
  · rw [overrides_update_and_frame argsW default_config overriddenConfig rfl "whisper" "params"]
    decide
  · rw [overrides_update_and_frame argsW default_config overriddenConfig rfl "ollama" "model"]
    decide
  · rw [overrides_update_and_frame argsW default_config overriddenConfig rfl "tts" "engine"]
    decide

/-- C4 counterexample: `--model` provided with the empty string is a provided
flag, yet the override step leaves `ollama.model` at its file-loaded value
`llama3` instead of replacing it, because the source tests Python truthiness
(`if args.model:`) rather than presence. -/
theorem overrides_empty_flag_counterexample :
    argsEmptyModel.model = some ""
    ∧ applyOverrides argsEmptyModel default_config = .ok default_config
    ∧ getCfg default_config "ollama" "model" = some (.s "llama3")
    ∧ getCfg default_config "ollama" "model" ≠ some (.s "") := by
  refine ⟨rfl, rfl, rfl, by decide⟩

end VoiceAssistant
